import Mathlib

/-!
Shallow embedding of `src/plugin.py` (plugin `maiplug_message_react`),
verifying the natural-language specification of the message-reaction
action.  The plugin's external collaborators (LLM invocation, the JSON
repair/parse utilities, the HTTP transport, the message store) live in
other repositories and are modelled as inputs in an environment record;
the control flow, string handling, catalog and message construction of
`MessageReactAction.execute` and `MessageReactAction.send_msg_react`
are translated directly from the source.
-/

/-- ASCII single-quote character (code point 39), written via its code. -/
def sqc : Char := Char.ofNat 39

/-- ASCII double-quote character (code point 34). -/
def dqc : Char := Char.ofNat 34

/-- One-character string holding the single quote. -/
def sqs : String := String.mk [sqc]

/-- Values produced by parsing JSON text, as Python's `json.loads` yields
them (dicts as association lists with unique keys, ints for numbers;
floats do not occur in any behaviour the claims touch). -/
inductive Json where
  | null : Json
  | bool : Bool → Json
  | num : Int → Json
  | str : String → Json
  | arr : List Json → Json
  | obj : List (String × Json) → Json

mutual

/-- Python `repr` of a parsed-JSON value (string escaping inside quotes
is not modelled; no claim depends on it). -/
def pyRepr : Json → String
  | .null => "None"
  | .bool true => "True"
  | .bool false => "False"
  | .num n => toString n
  | .str s => sqs ++ s ++ sqs
  | .arr xs => "[" ++ pyReprSeq xs ++ "]"
  | .obj fs => "\x7b" ++ pyReprFields fs ++ "\x7d"

/-- Comma-separated reprs of the elements of a Python list. -/
def pyReprSeq : List Json → String
  | [] => ""
  | [x] => pyRepr x
  | x :: y :: xs => pyRepr x ++ ", " ++ pyReprSeq (y :: xs)

/-- Comma-separated `key: value` reprs of the items of a Python dict. -/
def pyReprFields : List (String × Json) → String
  | [] => ""
  | [(k, v)] => sqs ++ k ++ sqs ++ ": " ++ pyRepr v
  | (k, v) :: f :: fs => sqs ++ k ++ sqs ++ ": " ++ pyRepr v ++ ", " ++ pyReprFields (f :: fs)

end

/-- Python `str()` applied to a parsed-JSON value (used by the source at
`emoji_id_str = str(emoji_id_raw)` and inside f-strings). -/
def pyStr : Json → String
  | .str s => s
  | .num n => toString n
  | .bool true => "True"
  | .bool false => "False"
  | .null => "None"
  | .arr xs => pyRepr (.arr xs)
  | .obj fs => pyRepr (.obj fs)

/-- ASCII whitespace recognised by Python's `str.strip()` and `int()`
(unicode whitespace beyond ASCII is not modelled). -/
def pySpace (c : Char) : Bool :=
  c = ' ' || c = '\t' || c = '\n' || c = '\r' || c = '\x0b' || c = '\x0c'

/-- Python `str.strip()` on the character list of a string. -/
def pyStripList (l : List Char) : List Char :=
  (((l.dropWhile pySpace).reverse.dropWhile pySpace)).reverse

/-- Python `str.replace(c, "")`: delete every occurrence of `c`. -/
def removeCharList (c : Char) (l : List Char) : List Char :=
  l.filter (fun a => a != c)

/-- The emoji-id normalisation of `execute`:
`emoji_id_str.strip().replace(dqc, "").replace(sqc, "")`. -/
def normalizeList (l : List Char) : List Char :=
  removeCharList sqc (removeCharList dqc (pyStripList l))

/-- String-level wrapper of the emoji-id normalisation. -/
def normalizeEmojiId (s : String) : String :=
  String.mk (normalizeList s.toList)

/-- Accumulating base-10 value of a digit list. -/
def digitsValAux (acc : Nat) : List Char → Nat
  | [] => acc
  | c :: cs => digitsValAux (acc * 10 + (c.toNat - 48)) cs

/-- Value of a non-empty all-digit character list, else `none`. -/
def decDigits? (l : List Char) : Option Nat :=
  if l.isEmpty then none
  else if l.all Char.isDigit then some (digitsValAux 0 l) else none

/-- Core of Python `int()` on an already-stripped character list:
optional sign followed by decimal digits (underscore digit grouping and
unicode digits are not modelled; no claim uses them). -/
def pyIntCore : List Char → Option Int
  | [] => none
  | c :: rest =>
    if c = '+' then (decDigits? rest).map (fun n => (n : Int))
    else if c = '-' then (decDigits? rest).map (fun n => -(n : Int))
    else (decDigits? (c :: rest)).map (fun n => (n : Int))

/-- Python `int(s)` for base 10: strips whitespace, then sign and
digits; `none` models the `ValueError` raise. -/
def pyInt? (s : String) : Option Int :=
  pyIntCore (pyStripList s.toList)

/-- The fixed emoji catalog `available_react_emojis` of the source, in
its insertion order. -/
def available_react_emojis : List (Int × String) :=
  [(76, "点赞"), (307, "喵喵"), (285, "摸鱼"),
   (66, "爱心"), (147, "棒棒糖"), (424, "狂按按钮"),
   (49, "抱抱"), (38, "木槌敲头"), (277, "狗头"),
   (265, "辣眼睛"), (390, "头秃"), (63, "玫瑰"),
   (212, "托腮"), (5, "大哭"), (9, "委屈"),
   (350, "贴贴"), (175, "卖萌"), (344, "大怨种"),
   (187, "鬼魂"), (144, "礼花"), (146, "爆筋"),
   (311, "打call"), (59, "便便"), (46, "猪头"),
   (37, "骷髅头"), (317, "菜狗"), (124, "OK")]

/-- Python `available_react_emojis.get(n)`: catalog lookup, `None` on a
missing key (keys are unique, so first-match lookup coincides). -/
def lookupEmoji (n : Int) : Option String :=
  available_react_emojis.lookup n

/-- Rendering of the resolved emoji name inside an f-string: a `None`
name prints as `"None"`. -/
def optNameStr : Option String → String
  | some s => s
  | none => "None"

/-- The `available_emojis_prompt` string of the source: `"id:name"`
pairs joined by `", "`. -/
def availableEmojisPrompt : String :=
  String.intercalate ", "
    (available_react_emojis.map (fun p => toString p.1 ++ ":" ++ p.2))

/-- Read-only projection of a stored chat message as `execute` consumes
it; `time_human` is the output of the external relative-timestamp
translator, `processed_plain_text` the stored plain text. -/
structure RecentMsg where
  message_id : String
  user_nickname : String
  time_human : String
  processed_plain_text : String

/-- One prompt line per message:
`f"{msg_id},{timestamp},{user_name}:{content}"` with newlines in the
content collapsed to spaces; lines joined by newlines, empty history
yielding the empty string. -/
def buildMessagesText : List RecentMsg → String
  | [] => ""
  | m :: ms =>
    String.intercalate "\n"
      ((m :: ms).map (fun x =>
        x.message_id ++ "," ++ x.time_human ++ "," ++ x.user_nickname ++ ":" ++
          ((x.processed_plain_text.replace "\n" " ").replace "\r" " ")))

/-- The fixed LLM prompt template of `execute`, with the message history
and the emoji catalog interpolated. -/
def buildPrompt (messages_text : String) : String :=
  "\n你是一个正在进行聊天的网友，你需要根据一个和最近的聊天记录，从一个反应表情列表中选择最匹配的一个反应表情的数字ID。\n这是最近的聊天记录列表，消息的格式为：\"<id>,<time>,<user>:<content>\" 一行一个：\n"
    ++ messages_text
    ++ "\n以下是是可用的反应表情，ID 在前，名称在后，不同反应表情间用\",\"分割：\n"
    ++ availableEmojisPrompt
    ++ "\n请严格按下列的 JSON 格式返回最匹配的那个反应表情 ID 和消息 ID，不要进行任何解释或添加其他多余的文字：\n\x7b\n  \"message_id\": \"要贴反应表情的消息ID\",\n  \"emoji_id\": \"选择的对应反应表情ID\"\n\x7d\n"

/-- The HTTP request `send_msg_react` builds: method, target, JSON body
as an ordered key/value list, and header list. -/
structure HttpRequest where
  method : String
  host : String
  port : Nat
  path : String
  body : List (String × Json)
  headers : List (String × String)

/-- Python truthiness of the optional `napcat.token` configuration value
(`None` and the empty string are falsy). -/
def tokenTruthy : Option String → Bool
  | none => false
  | some s => !s.isEmpty

/-- The request assembled by `send_msg_react`: payload
`{"message_id": ..., "emoji_id": ..., "set": True}` posted to
`/set_msg_emoji_like`, with `Content-Type: application/json` and an
`Authorization` header exactly when a token is configured. -/
def mkReactRequest (host : String) (port : Nat) (token : Option String)
    (message_id : Json) (emoji_id : String) : HttpRequest :=
  { method := "POST"
    host := host
    port := port
    path := "/set_msg_emoji_like"
    body := [("message_id", message_id), ("emoji_id", .str emoji_id), ("set", .bool true)]
    headers :=
      if tokenTruthy token then
        [("Content-Type", "application/json"), ("Authorization", token.getD "")]
      else
        [("Content-Type", "application/json")] }

/-- Observable side effects of one invocation, in order: the awaited LLM
call, the HTTP request attempt, and the `store_action_info` persistence
of the outcome record. -/
inductive Event where
  | modelCall : String → Event
  | gatewayCall : HttpRequest → Event
  | storeOutcome : Bool → String → Event

/-- What the gateway interaction yields: a transport-level exception
(type name and message) raised while sending/reading, or a response body
together with the outcome of the external `json.loads` on it (`Except`
error = decoder message). -/
inductive GatewayResponse where
  | transportError : String → String → GatewayResponse
  | body : String → Except String Json → GatewayResponse

/-- The f-string `f"贴表情失败 {error_info}"` where `error_info` is the
dict `{"error_type": t, "error_message": m}` rendered by Python. -/
def pyErrStr (t m : String) : String :=
  "贴表情失败 \x7b" ++ sqs ++ "error_type" ++ sqs ++ ": " ++ sqs ++ t ++ sqs
    ++ ", " ++ sqs ++ "error_message" ++ sqs ++ ": " ++ sqs ++ m ++ sqs ++ "\x7d"

/-- Python type name of a parsed-JSON value, as it appears in the
`AttributeError` raised by `.get` on a non-dict. -/
def pyTypeName : Json → String
  | .null => "NoneType"
  | .bool _ => "bool"
  | .num _ => "int"
  | .str _ => "str"
  | .arr _ => "list"
  | .obj _ => "dict"

/-- Message of the `AttributeError` raised when the parsed response body
is not a dict and `.get` is called on it. -/
def attrErrMsg (j : Json) : String :=
  sqs ++ pyTypeName j ++ sqs ++ " object has no attribute " ++ sqs ++ "get" ++ sqs

/-- Python `x == "ok"` where `x` is `dict.get("status")`: true exactly
when the field is present and is the string `"ok"`. -/
def pyEqStr (j : Option Json) (s : String) : Bool :=
  match j with
  | some (.str t) => t == s
  | _ => false

/-- `MessageReactAction.send_msg_react`: always attempts one POST to
`/set_msg_emoji_like`; on a transport error or an unparsable / non-dict
response body it catches the exception and returns `(False, 贴表情失败 …)`;
on a parsed dict it returns `(status == "ok", dict.get("message", raw))`.
The second tuple component is a Python value (`Json`), since
`data_json.get("message", result)` need not be a string.  `chat_id` is
used only for logging. -/
def sendMsgReact (host : String) (port : Nat) (token : Option String)
    (chat_id : String) (message_id : Json) (emoji_id : String)
    (resp : GatewayResponse) : List Event × (Bool × Json) :=
  let req := mkReactRequest host port token message_id emoji_id
  ([Event.gatewayCall req],
    match resp with
    | .transportError t m => (false, .str (pyErrStr t m))
    | .body raw parsed =>
      match parsed with
      | .error em => (false, .str (pyErrStr "JSONDecodeError" em))
      | .ok dj =>
        match dj with
        | .obj fs =>
          (pyEqStr (fs.lookup "status") "ok", (fs.lookup "message").getD (.str raw))
        | other => (false, .str (pyErrStr "AttributeError" (attrErrMsg other))))

/-- Exceptions `execute` can let escape: a `json.loads` failure on the
repaired model output, a missing dict key, subscripting a non-dict, or
an `int()` conversion failure (carrying the offending literal). -/
inductive ExcErr where
  | jsonDecodeError : ExcErr
  | keyError : String → ExcErr
  | typeError : ExcErr
  | valueError : String → ExcErr
deriving DecidableEq

/-- Python `json_resp[k]`: field lookup on a dict (`KeyError` when the
key is missing), `TypeError` when the value is not a dict. -/
def jsonGetItem (j : Json) (k : String) : Except ExcErr Json :=
  match j with
  | .obj fs =>
    match fs.lookup k with
    | some v => .ok v
    | none => .error (.keyError k)
  | _ => .error .typeError

/-- The failure message of the missing-model-configuration branch:
`"未找到'tool_use'模型配置"`. -/
def noToolUseModelMsg : String :=
  "未找到" ++ sqs ++ "tool_use" ++ sqs ++ "模型配置"

/-- Environment of one `execute` invocation: the chat context plus the
responses of every external collaborator.  `fixed_parse` is the result
of `json.loads(fix_broken_generated_json(llm_text))` (`none` models the
uncaught decode error); `gateway` is what the HTTP interaction yields. -/
structure Env where
  is_group : Bool
  chat_id : String
  recent_messages : List RecentMsg
  has_tool_use : Bool
  llm_success : Bool
  llm_text : String
  fixed_parse : Option Json
  napcat_host : String
  napcat_port : Nat
  napcat_token : Option String
  gateway : GatewayResponse

/-- `MessageReactAction.execute`, step for step: group-chat gate, prompt
construction, model-configuration gate, LLM call, repair + parse (before
the success-flag check, as in the source), field extraction, emoji-id
normalisation and conversion, catalog lookup, the `send_msg_react` call,
outcome persistence, and the final `(success == True, message)` tuple.
The first component is the ordered trace of observable side effects, the
second an `Except` whose `error` models an uncaught exception. -/
def execute (env : Env) : List Event × Except ExcErr (Bool × String) :=
  if !env.is_group then ([], .ok (false, "消息反应仅支持群聊"))
  else
    let messages_text := buildMessagesText env.recent_messages
    let prompt := buildPrompt messages_text
    if !env.has_tool_use then ([], .ok (false, noToolUseModelMsg))
    else
      match env.fixed_parse with
      | none => ([Event.modelCall prompt], .error .jsonDecodeError)
      | some json_resp =>
        if !env.llm_success then
          ([Event.modelCall prompt], .ok (false, "LLM调用失败: " ++ env.llm_text))
        else
          match jsonGetItem json_resp "message_id" with
          | .error e => ([Event.modelCall prompt], .error e)
          | .ok selected_message_id =>
            match jsonGetItem json_resp "emoji_id" with
            | .error e => ([Event.modelCall prompt], .error e)
            | .ok emoji_id_raw =>
              let chosen := normalizeEmojiId (pyStr emoji_id_raw)
              match pyInt? chosen with
              | none => ([Event.modelCall prompt], .error (.valueError chosen))
              | some n =>
                let name := lookupEmoji n
                let gw := sendMsgReact env.napcat_host env.napcat_port env.napcat_token
                  env.chat_id selected_message_id chosen env.gateway
                ([Event.modelCall prompt] ++ gw.1 ++
                    [Event.storeOutcome true
                      ("[反应表情：贴在了消息ID=" ++ pyStr selected_message_id ++
                        "上，表情是=" ++ optNameStr name ++ "]")],
                  .ok (env.llm_success == true,
                    "反应表情：贴在了消息ID=" ++ pyStr selected_message_id ++
                      "上，表情是=" ++ optNameStr name))

/-- Number of gateway-call events in a trace. -/
def countGatewayCalls (l : List Event) : Nat :=
  (l.filter (fun e => match e with | .gatewayCall _ => true | _ => false)).length

/-- Characters of a string literal are preserved by `String.mk`. -/
theorem toList_mk (l : List Char) : (String.mk l).toList = l := rfl

/-- Environment of a non-group-chat invocation, used as a witness input. -/
def envNonGroup : Env :=
  { is_group := false, chat_id := "g1", recent_messages := [],
    has_tool_use := true, llm_success := true, llm_text := "t",
    fixed_parse := none, napcat_host := "napcat", napcat_port := 9999,
    napcat_token := none, gateway := .body "" (.error "e") }

/-- C4: for every invocation whose chat context is not a group
conversation, `execute` immediately returns failure with the fixed
message `消息反应仅支持群聊`, with an empty side-effect trace (no model
call, no gateway call, no outcome record). -/
theorem execute_non_group_reject (env : Env) (h : env.is_group = false) :
    execute env = ([], .ok (false, "消息反应仅支持群聊")) := by
  simp [execute, h]

/-- Witness for C4 at a concrete non-group environment. -/
theorem execute_non_group_reject_w :
    execute envNonGroup = ([], .ok (false, "消息反应仅支持群聊")) :=
  execute_non_group_reject envNonGroup rfl

/-- Environment whose model-configuration lookup for `tool_use` comes
back empty, used as a witness input. -/
def envNoToolUse : Env :=
  { is_group := true, chat_id := "g1", recent_messages := [],
    has_tool_use := false, llm_success := true, llm_text := "t",
    fixed_parse := none, napcat_host := "napcat", napcat_port := 9999,
    napcat_token := none, gateway := .body "" (.error "e") }

/-- C8: for every group-chat invocation where the `tool_use` model
configuration is absent, `execute` returns failure with the descriptive
message and an empty trace: no model invocation and no gateway call. -/
theorem execute_missing_tool_use_config (env : Env)
    (hg : env.is_group = true) (ht : env.has_tool_use = false) :
    execute env = ([], .ok (false, noToolUseModelMsg)) := by
  simp [execute, hg, ht]

/-- Witness for C8 at a concrete environment without `tool_use`. -/
theorem execute_missing_tool_use_config_w :
    execute envNoToolUse = ([], .ok (false, noToolUseModelMsg)) :=
  execute_missing_tool_use_config envNoToolUse rfl rfl

/-- Environment of a failed model call whose repaired text still parses,
used as a witness input. -/
def envFailedParsable : Env :=
  { is_group := true, chat_id := "g1", recent_messages := [],
    has_tool_use := true, llm_success := false, llm_text := "oops",
    fixed_parse := some (.obj []), napcat_host := "napcat",
    napcat_port := 9999, napcat_token := none,
    gateway := .body "" (.error "e") }

/-- C2: `execute` parses the repaired model output before it checks the
model call's success flag.  When the flag is false and the repaired text
parses, the model-failure message (containing the raw text) is
returned; when the flag is false and the text does not parse, the parse
exception propagates out instead of that message. -/
theorem execute_parse_precedes_success_check (env : Env)
    (hg : env.is_group = true) (ht : env.has_tool_use = true)
    (hs : env.llm_success = false) :
    (∀ j, env.fixed_parse = some j →
      (execute env).2 = .ok (false, "LLM调用失败: " ++ env.llm_text)) ∧
    (env.fixed_parse = none → (execute env).2 = .error .jsonDecodeError) := by
  constructor
  · intro j hj
    simp [execute, hg, ht, hs, hj]
  · intro hj
    simp [execute, hg, ht, hj]

/-- Witness for C2: the failed-but-parsable case surfaces the raw model
text in the failure message. -/
theorem execute_parse_precedes_success_check_w :
    (execute envFailedParsable).2 = .ok (false, "LLM调用失败: oops") :=
  (execute_parse_precedes_success_check envFailedParsable rfl rfl rfl).1
    (.obj []) rfl

/-- Environment where the model reply lacks the `message_id` key. -/
def envMissingKey : Env :=
  { is_group := true, chat_id := "g1", recent_messages := [],
    has_tool_use := true, llm_success := true, llm_text := "t",
    fixed_parse := some (.obj [("emoji_id", .str "76")]),
    napcat_host := "napcat", napcat_port := 9999, napcat_token := none,
    gateway := .body "" (.error "e") }

/-- Environment where the model reply's `emoji_id` does not normalise to
a decimal integer string. -/
def envBadEmojiId : Env :=
  { is_group := true, chat_id := "g1", recent_messages := [],
    has_tool_use := true, llm_success := true, llm_text := "t",
    fixed_parse := some (.obj [("message_id", .str "1"), ("emoji_id", .str "abc")]),
    napcat_host := "napcat", napcat_port := 9999, napcat_token := none,
    gateway := .body "" (.error "e") }

/-- C10: on a successful group-chat invocation, a repaired JSON object
missing the `message_id` key makes `execute` raise an uncaught key
lookup error, and an `emoji_id` that does not normalise to a decimal
integer makes it raise an uncaught integer-conversion error — in both
cases no `(success, message)` tuple is returned. -/
theorem execute_malformed_fields_raise :
    (execute envMissingKey).2 = .error (.keyError "message_id") ∧
    (execute envBadEmojiId).2 = .error (.valueError "abc") := by
  exact ⟨rfl, rfl⟩

/-- C1: on a group-chat invocation where the model call succeeds and its
repaired reply is a JSON object naming an existing message ID and a
known catalog emoji ID, `execute` calls the gateway exactly once with
that message ID and emoji ID, and returns success with the outcome
message naming that message ID and the catalog name of the emoji. -/
theorem execute_valid_reaction_flow (env : Env) (j : Json)
    (mid eidS nm : String) (n : Int)
    (hg : env.is_group = true) (ht : env.has_tool_use = true)
    (hs : env.llm_success = true)
    (hp : env.fixed_parse = some j)
    (hm : jsonGetItem j "message_id" = .ok (.str mid))
    (he : jsonGetItem j "emoji_id" = .ok (.str eidS))
    (hid : normalizeEmojiId eidS = eidS)
    (hn : pyInt? eidS = some n)
    (hname : lookupEmoji n = some nm)
    (hex : ∃ m ∈ env.recent_messages, m.message_id = mid) :
    countGatewayCalls (execute env).1 = 1 ∧
    Event.gatewayCall
        (mkReactRequest env.napcat_host env.napcat_port env.napcat_token
          (.str mid) eidS) ∈ (execute env).1 ∧
    (execute env).2 =
      .ok (true, "反应表情：贴在了消息ID=" ++ mid ++ "上，表情是=" ++ nm) := by
  simp [execute, hg, ht, hs, hp, hm, he, pyStr, hid, hn, hname,
    sendMsgReact, countGatewayCalls, optNameStr]

/-- Environment of a fully successful invocation choosing emoji 76 on
message 1, used as a witness input. -/
def envC1 : Env :=
  { is_group := true, chat_id := "g1",
    recent_messages := [⟨"1", "A", "刚刚", "hi"⟩],
    has_tool_use := true, llm_success := true, llm_text := "x",
    fixed_parse := some (.obj [("message_id", .str "1"), ("emoji_id", .str "76")]),
    napcat_host := "napcat", napcat_port := 9999, napcat_token := none,
    gateway := .body "resp" (.ok (.obj [("status", .str "ok")])) }

/-- Witness for C1: with catalog entry 76→点赞 and model reply
message 1 / emoji 76, one gateway call is made and the outcome is
`(true, 反应表情：贴在了消息ID=1上，表情是=点赞)`. -/
theorem execute_valid_reaction_flow_w :
    countGatewayCalls (execute envC1).1 = 1 ∧
    Event.gatewayCall (mkReactRequest "napcat" 9999 none (.str "1") "76")
        ∈ (execute envC1).1 ∧
    (execute envC1).2 = .ok (true, "反应表情：贴在了消息ID=1上，表情是=点赞") :=
  execute_valid_reaction_flow envC1 (.obj [("message_id", .str "1"), ("emoji_id", .str "76")])
    "1" "76" "点赞" 76 rfl rfl rfl rfl rfl rfl rfl rfl rfl
    ⟨⟨"1", "A", "刚刚", "hi"⟩, List.mem_singleton.mpr rfl, rfl⟩

/-- C7: when the model reply is well-formed but its `emoji_id` converts
to an integer that is not a catalog key, the flow does not abort: the
gateway call is still issued with that emoji id, the outcome record is
still persisted, and `execute` returns success with `None` standing
where the emoji name would be. -/
theorem execute_unknown_emoji_proceeds (env : Env) (j : Json)
    (mid eidS : String) (n : Int)
    (hg : env.is_group = true) (ht : env.has_tool_use = true)
    (hs : env.llm_success = true)
    (hp : env.fixed_parse = some j)
    (hm : jsonGetItem j "message_id" = .ok (.str mid))
    (he : jsonGetItem j "emoji_id" = .ok (.str eidS))
    (hid : normalizeEmojiId eidS = eidS)
    (hn : pyInt? eidS = some n)
    (hname : lookupEmoji n = none) :
    countGatewayCalls (execute env).1 = 1 ∧
    Event.gatewayCall
        (mkReactRequest env.napcat_host env.napcat_port env.napcat_token
          (.str mid) eidS) ∈ (execute env).1 ∧
    Event.storeOutcome true
        ("[反应表情：贴在了消息ID=" ++ mid ++ "上，表情是=" ++ "None" ++ "]")
        ∈ (execute env).1 ∧
    (execute env).2 =
      .ok (true, "反应表情：贴在了消息ID=" ++ mid ++ "上，表情是=" ++ "None") := by
  simp [execute, hg, ht, hs, hp, hm, he, pyStr, hid, hn, hname,
    sendMsgReact, countGatewayCalls, optNameStr]

/-- Environment whose model reply picks emoji id 999, absent from the
catalog, used as a witness input. -/
def envC7 : Env :=
  { is_group := true, chat_id := "g1",
    recent_messages := [⟨"1", "A", "刚刚", "hi"⟩],
    has_tool_use := true, llm_success := true, llm_text := "x",
    fixed_parse := some (.obj [("message_id", .str "1"), ("emoji_id", .str "999")]),
    napcat_host := "napcat", napcat_port := 9999, napcat_token := none,
    gateway := .body "resp" (.ok (.obj [("status", .str "ok")])) }

/-- Witness for C7: emoji id 999 is not in the catalog, yet the gateway
is called and the outcome message carries `None` as the name. -/
theorem execute_unknown_emoji_proceeds_w :
    countGatewayCalls (execute envC7).1 = 1 ∧
    Event.gatewayCall (mkReactRequest "napcat" 9999 none (.str "1") "999")
        ∈ (execute envC7).1 ∧
    Event.storeOutcome true "[反应表情：贴在了消息ID=1上，表情是=None]"
        ∈ (execute envC7).1 ∧
    (execute envC7).2 = .ok (true, "反应表情：贴在了消息ID=1上，表情是=None") :=
  execute_unknown_emoji_proceeds envC7
    (.obj [("message_id", .str "1"), ("emoji_id", .str "999")])
    "1" "999" 999 rfl rfl rfl rfl rfl rfl rfl rfl rfl

/-- C9: every invocation that reaches the gateway call also persists the
action-outcome record, whatever the gateway interaction yielded, and the
recorded text embeds the message ID sent to the gateway and the catalog
resolution of the emoji id that was sent. -/
theorem execute_outcome_always_recorded (env : Env)
    (h : ∃ r, Event.gatewayCall r ∈ (execute env).1) :
    ∃ mid eidS n req,
      (execute env).1 =
        [Event.modelCall (buildPrompt (buildMessagesText env.recent_messages)),
         Event.gatewayCall req,
         Event.storeOutcome true
           ("[反应表情：贴在了消息ID=" ++ pyStr mid ++ "上，表情是=" ++
             optNameStr (lookupEmoji n) ++ "]")] ∧
      req.body = [("message_id", mid), ("emoji_id", .str eidS), ("set", .bool true)] ∧
      pyInt? eidS = some n := by
  obtain ⟨r, hr⟩ := h
  cases hg : env.is_group with
  | false => simp [execute, hg] at hr
  | true =>
    cases ht : env.has_tool_use with
    | false => simp [execute, hg, ht] at hr
    | true =>
      cases hp : env.fixed_parse with
      | none => simp [execute, hg, ht, hp] at hr
      | some j =>
        cases hs : env.llm_success with
        | false => simp [execute, hg, ht, hp, hs] at hr
        | true =>
          cases hm : jsonGetItem j "message_id" with
          | error e => simp [execute, hg, ht, hp, hs, hm] at hr
          | ok midv =>
            cases he : jsonGetItem j "emoji_id" with
            | error e => simp [execute, hg, ht, hp, hs, hm, he] at hr
            | ok eraw =>
              cases hn : pyInt? (normalizeEmojiId (pyStr eraw)) with
              | none => simp [execute, hg, ht, hp, hs, hm, he, hn] at hr
              | some n =>
                refine ⟨midv, normalizeEmojiId (pyStr eraw), n,
                  mkReactRequest env.napcat_host env.napcat_port env.napcat_token
                    midv (normalizeEmojiId (pyStr eraw)), ?_, rfl, hn⟩
                simp [execute, hg, ht, hp, hs, hm, he, hn, sendMsgReact]

/-- Environment used as a witness input for the outcome-recording claim. -/
def envC9 : Env :=
  { is_group := true, chat_id := "g1",
    recent_messages := [⟨"1", "A", "刚刚", "hi"⟩],
    has_tool_use := true, llm_success := true, llm_text := "x",
    fixed_parse := some (.obj [("message_id", .str "1"), ("emoji_id", .str "76")]),
    napcat_host := "napcat", napcat_port := 9999, napcat_token := none,
    gateway := .transportError "ConnectionRefusedError" "refused" }

/-- Witness for C9: even with the gateway failing at transport level,
the outcome record is persisted with message id and emoji name. -/
theorem execute_outcome_always_recorded_w :
    Event.storeOutcome true "[反应表情：贴在了消息ID=1上，表情是=点赞]"
      ∈ (execute envC9).1 := by
  obtain ⟨mid, eidS, n, req, h1, h2, h3⟩ :=
    execute_outcome_always_recorded envC9
      ⟨mkReactRequest "napcat" 9999 none (Json.str "1") "76",
        List.Mem.tail _ (List.Mem.head _)⟩
  exact List.Mem.tail _ (List.Mem.tail _ (List.Mem.head _))

/-- The Python comparison `dict.get("status") == s` holds exactly when
the field is present and is the string `s`. -/
theorem pyEqStr_eq_true (o : Option Json) (s : String) :
    pyEqStr o s = true ↔ o = some (.str s) := by
  cases o with
  | none => simp [pyEqStr]
  | some j => cases j <;> simp [pyEqStr]

/-- C3: `send_msg_react` returns success exactly when the response body
parses as a JSON dict whose `status` field is the string `"ok"`, in
which case the message is the server-provided one (defaulting to the
raw body); a transport error or an unparsable body is caught and turned
into a `(false, 贴表情失败 …)` result rather than raised. -/
theorem sendMsgReact_status_ok_iff (host : String) (port : Nat)
    (token : Option String) (cid : String) (mid : Json) (eid : String)
    (resp : GatewayResponse) :
    ((sendMsgReact host port token cid mid eid resp).2.1 = true ↔
      ∃ raw fs, resp = .body raw (.ok (.obj fs)) ∧
        fs.lookup "status" = some (.str "ok")) ∧
    (∀ raw fs, resp = .body raw (.ok (.obj fs)) →
      (sendMsgReact host port token cid mid eid resp).2 =
        (pyEqStr (fs.lookup "status") "ok", (fs.lookup "message").getD (.str raw))) ∧
    (∀ t m, resp = .transportError t m →
      (sendMsgReact host port token cid mid eid resp).2 =
        (false, .str (pyErrStr t m))) ∧
    (∀ raw em, resp = .body raw (.error em) →
      (sendMsgReact host port token cid mid eid resp).2 =
        (false, .str (pyErrStr "JSONDecodeError" em))) := by
  refine ⟨?_, ?_, ?_, ?_⟩
  · cases resp with
    | transportError t m => simp [sendMsgReact]
    | body raw parsed =>
      cases parsed with
      | error em => simp [sendMsgReact]
      | ok dj =>
        cases dj <;> simp [sendMsgReact, pyEqStr_eq_true]
        constructor
        · intro h2
          exact ⟨raw, _, ⟨rfl, rfl⟩, h2⟩
        · rintro ⟨r, f, ⟨rfl, rfl⟩, h2⟩
          exact h2
  · intro raw fs h
    subst h
    simp [sendMsgReact]
  · intro t m h
    subst h
    simp [sendMsgReact]
  · intro raw em h
    subst h
    simp [sendMsgReact]

/-- Witness for C3: a parsed `{"status":"ok","message":"done"}` body
yields success with message `done`. -/
theorem sendMsgReact_status_ok_iff_w :
    (sendMsgReact "napcat" 9999 none "g1" (Json.str "1") "76"
      (.body "raw" (.ok (.obj [("status", .str "ok"), ("message", .str "done")])))).2 =
      (true, Json.str "done") := by
  have h := (sendMsgReact_status_ok_iff "napcat" 9999 none "g1" (Json.str "1") "76"
    (.body "raw" (.ok (.obj [("status", .str "ok"), ("message", .str "done")])))).2.1
    "raw" [("status", .str "ok"), ("message", .str "done")] rfl
  simpa using h

/-- C5: every request `send_msg_react` issues is a POST of the JSON body
`{"message_id", "emoji_id", "set": true}` to `/set_msg_emoji_like` on
the configured host and port, with `Content-Type: application/json`;
the `Authorization` header carries the token exactly when one is
configured (non-empty), and `chat_id` never appears in the body. -/
theorem sendMsgReact_request_shape (host : String) (port : Nat)
    (token : Option String) (cid : String) (mid : Json) (eid : String)
    (resp : GatewayResponse) (req : HttpRequest)
    (h : Event.gatewayCall req ∈ (sendMsgReact host port token cid mid eid resp).1) :
    req.method = "POST" ∧ req.host = host ∧ req.port = port ∧
    req.path = "/set_msg_emoji_like" ∧
    req.body = [("message_id", mid), ("emoji_id", .str eid), ("set", .bool true)] ∧
    req.headers.lookup "Content-Type" = some "application/json" ∧
    (tokenTruthy token = true →
      req.headers.lookup "Authorization" = some (token.getD "")) ∧
    (tokenTruthy token = false → req.headers.lookup "Authorization" = none) ∧
    req.body.lookup "chat_id" = none := by
  have hreq : req = mkReactRequest host port token mid eid := by
    simpa [sendMsgReact] using h
  subst hreq
  by_cases htok : tokenTruthy token = true <;>
    simp [mkReactRequest, htok, List.lookup]

/-- Witness for C5: the concrete request built with a configured token
posts to the reaction path. -/
theorem sendMsgReact_request_shape_w :
    (mkReactRequest "napcat" 9999 (some "tok") (Json.str "1") "76").path =
      "/set_msg_emoji_like" ∧
    (mkReactRequest "napcat" 9999 (some "tok") (Json.str "1") "76").headers.lookup
      "Authorization" = some "tok" := by
  have h := sendMsgReact_request_shape "napcat" 9999 (some "tok") "g1"
    (Json.str "1") "76" (.transportError "OSError" "down")
    (mkReactRequest "napcat" 9999 (some "tok") (Json.str "1") "76")
    (List.Mem.head _)
  exact ⟨h.2.2.2.1, h.2.2.2.2.2.2.1 rfl⟩

/-- Dropping a predicate-satisfying prefix steps over a block that
satisfies it everywhere. -/
theorem dropWhile_append_all (p : Char → Bool) (a b : List Char)
    (h : ∀ c ∈ a, p c = true) :
    (a ++ b).dropWhile p = b.dropWhile p := by
  induction a with
  | nil => simp
  | cons x xs ih =>
    simp only [List.cons_append, List.dropWhile_cons, h x (List.mem_cons_self x xs),
      if_true]
    exact ih (fun c hc => h c (List.mem_cons_of_mem _ hc))

/-- A list whose head falsifies the predicate is left intact by
`dropWhile`. -/
theorem dropWhile_eq_self_head (p : Char → Bool) (l : List Char)
    (h : ∀ c ∈ l, p c = false) : l.dropWhile p = l := by
  cases l with
  | nil => rfl
  | cons x xs => simp [List.dropWhile_cons, h x (List.mem_cons_self x xs)]

/-- A list satisfying the predicate everywhere is dropped entirely. -/
theorem dropWhile_eq_nil_all (p : Char → Bool) (a : List Char)
    (h : ∀ c ∈ a, p c = true) : a.dropWhile p = [] := by
  simpa using dropWhile_append_all p a [] h

/-- Stripping removes exactly a whitespace prefix and suffix around a
whitespace-free core. -/
theorem pyStripList_sandwich (ws1 mid ws2 : List Char)
    (h1 : ∀ c ∈ ws1, pySpace c = true) (h2 : ∀ c ∈ ws2, pySpace c = true)
    (hm : ∀ c ∈ mid, pySpace c = false) :
    pyStripList (ws1 ++ mid ++ ws2) = mid := by
  unfold pyStripList
  rw [List.append_assoc, dropWhile_append_all _ _ _ h1]
  cases mid with
  | nil =>
    simp [dropWhile_eq_nil_all _ _ h2]
  | cons x xs =>
    have hx : pySpace x = false := hm x (List.mem_cons_self x xs)
    rw [List.cons_append, List.dropWhile_cons, hx]
    simp only [Bool.false_eq_true, if_false]
    rw [show x :: (xs ++ ws2) = (x :: xs) ++ ws2 from rfl, List.reverse_append,
      dropWhile_append_all _ _ _ (fun c hc => h2 c (List.mem_reverse.mp hc)),
      dropWhile_eq_self_head _ _ (fun c hc => hm c (List.mem_reverse.mp hc)),
      List.reverse_reverse]

/-- A whitespace-free list is left unchanged by the strip. -/
theorem pyStripList_of_nospace (l : List Char)
    (h : ∀ c ∈ l, pySpace c = false) : pyStripList l = l := by
  simpa using pyStripList_sandwich [] l [] (by simp) (by simp) h

/-- Character removal distributes over append. -/
theorem removeCharList_append (c : Char) (a b : List Char) :
    removeCharList c (a ++ b) = removeCharList c a ++ removeCharList c b := by
  simp [removeCharList, List.filter_append]

/-- A list containing no occurrence of the character is unchanged by its
removal. -/
theorem removeCharList_all_kept (c : Char) (l : List Char)
    (h : ∀ a ∈ l, a ≠ c) : removeCharList c l = l := by
  refine List.filter_eq_self.mpr (fun a ha => ?_)
  simpa [bne_iff_ne] using h a ha

/-- A list made only of the two quote characters vanishes under the two
removals. -/
theorem quotes_removed (q : List Char) (hq : ∀ c ∈ q, c = sqc ∨ c = dqc) :
    removeCharList sqc (removeCharList dqc q) = [] := by
  rw [removeCharList, removeCharList, List.filter_filter]
  refine List.filter_eq_nil_iff.mpr (fun a ha => ?_)
  rcases hq a ha with rfl | rfl <;> decide

/-- The ten ASCII digit characters. -/
def digitChars : List Char := ['0', '1', '2', '3', '4', '5', '6', '7', '8', '9']

/-- Every ASCII digit character is a digit for `int()`, is not
whitespace, and is neither quote character. -/
theorem digitChar_facts (c : Char) (h : c ∈ digitChars) :
    Char.isDigit c = true ∧ pySpace c = false ∧ c ≠ dqc ∧ c ≠ sqc := by
  fin_cases h <;> decide

/-- C6: the emoji-id normalisation (strip whitespace, remove quote
characters, convert to integer) maps any whitespace-padded and/or
quote-wrapped decoration of a bare digit string to the same integer,
hence to the same catalog name, as the bare digit string itself. -/
theorem emoji_id_normalization_invariant (ws1 ws2 q1 q2 ds : List Char)
    (h1 : ∀ c ∈ ws1, pySpace c = true) (h2 : ∀ c ∈ ws2, pySpace c = true)
    (hq1 : ∀ c ∈ q1, c = sqc ∨ c = dqc) (hq2 : ∀ c ∈ q2, c = sqc ∨ c = dqc)
    (hd : ∀ c ∈ ds, c ∈ digitChars) :
    pyInt? (normalizeEmojiId (String.mk (ws1 ++ (q1 ++ ds ++ q2) ++ ws2))) =
      pyInt? (normalizeEmojiId (String.mk ds)) ∧
    (pyInt? (normalizeEmojiId (String.mk (ws1 ++ (q1 ++ ds ++ q2) ++ ws2)))).bind
        lookupEmoji =
      (pyInt? (normalizeEmojiId (String.mk ds))).bind lookupEmoji := by
  have hds_nospace : ∀ c ∈ ds, pySpace c = false :=
    fun c hc => (digitChar_facts c (hd c hc)).2.1
  have hmid : ∀ c ∈ q1 ++ ds ++ q2, pySpace c = false := by
    intro c hc
    rcases List.mem_append.mp hc with hc' | hc'
    · rcases List.mem_append.mp hc' with hc'' | hc''
      · rcases hq1 c hc'' with rfl | rfl <;> decide
      · exact hds_nospace c hc''
    · rcases hq2 c hc' with rfl | rfl <;> decide
  have key : normalizeList (ws1 ++ (q1 ++ ds ++ q2) ++ ws2) = normalizeList ds := by
    unfold normalizeList
    rw [pyStripList_sandwich _ _ _ h1 h2 hmid, pyStripList_of_nospace ds hds_nospace,
      removeCharList_append, removeCharList_append, removeCharList_append,
      removeCharList_append, quotes_removed q1 hq1, quotes_removed q2 hq2,
      removeCharList_all_kept dqc ds (fun c hc => (digitChar_facts c (hd c hc)).2.2.1),
      removeCharList_all_kept sqc ds (fun c hc => (digitChar_facts c (hd c hc)).2.2.2)]
    simp
  have hfst :
      pyInt? (normalizeEmojiId (String.mk (ws1 ++ (q1 ++ ds ++ q2) ++ ws2))) =
        pyInt? (normalizeEmojiId (String.mk ds)) := by
    simp only [pyInt?, normalizeEmojiId, toList_mk, key]
  exact ⟨hfst, by rw [hfst]⟩

/-- Witness for C6: the decorated input `"  '307' "` resolves to the
same integer (307) and catalog name (喵喵) as the bare `"307"`. -/
theorem emoji_id_normalization_invariant_w :
    (pyInt? (normalizeEmojiId (String.mk
        ([' ', ' '] ++ ([sqc] ++ ['3', '0', '7'] ++ [sqc]) ++ [' ']))) =
      pyInt? (normalizeEmojiId (String.mk ['3', '0', '7']))) ∧
    pyInt? (normalizeEmojiId (String.mk ['3', '0', '7'])) = some 307 ∧
    (pyInt? (normalizeEmojiId (String.mk
        ([' ', ' '] ++ ([sqc] ++ ['3', '0', '7'] ++ [sqc]) ++ [' '])))).bind
      lookupEmoji = some "喵喵" := by
  refine ⟨(emoji_id_normalization_invariant [' ', ' '] [' '] [sqc] [sqc]
    ['3', '0', '7'] (by decide) (by decide) (by decide) (by decide) (by decide)).1,
    by decide, by decide⟩
